import Mathlib

/-!
Shallow embedding of the NuSTAR solar pointing notebook
(setup_pointing/NuSTAR Sun Pointing Example.ipynb).

The notebook defines two pure functions, get_sky_position and
get_nustar_roll.  Everything non-trivial (time parsing, solar ephemeris,
solar north-pole angle, unit handling, trigonometry) is delegated to
external libraries (sunpy, astropy, numpy); those collaborators are
modelled as an abstract environment `SolarEnv` of functions over ℚ,
and the notebook's own arithmetic is translated line by line.
-/

namespace NuSTARPointing

/-- Angular units an offset quantity may carry (astropy `u.arcsec` etc.);
`toDeg` is the conversion factor applied when a quantity in this unit is
added to a quantity in degrees. -/
inductive AngUnit
  | arcsec
  | arcmin
  | deg
deriving DecidableEq

def AngUnit.toDeg : AngUnit → ℚ
  | .arcsec => 1 / 3600
  | .arcmin => 1 / 60
  | .deg => 1

/-- An offset argument: a 1-d numpy array of component values, optionally
tagged with an angular unit (an astropy Quantity when the tag is present,
a bare array when it is absent). -/
structure Offset where
  values : List ℚ
  unit : Option AngUnit

/-- The external collaborators used by the notebook, abstracted:
`parse_time` is sunpy.time.parse_time composed with astropy.time.Time
(`none` models an unparseable timestamp); `sun_ra`/`sun_dec` are
astropy's get_sun J2000 position in degrees; `solar_north_rad` is
sunpy's sun.solar_north(t).cgs in radians and `solar_north_deg` the same
angle in degrees; `cos`/`sin` stand for np.cos/np.sin on radian values
and `cosdeg` for np.cos applied to a degree-unit quantity (astropy
converts degrees to radians before the trig call). -/
structure SolarEnv (T : Type) where
  parse_time : T → Option T
  sun_ra : T → ℚ
  sun_dec : T → ℚ
  solar_north_rad : T → ℚ
  solar_north_deg : T → ℚ
  cos : ℚ → ℚ
  sin : ℚ → ℚ
  cosdeg : ℚ → ℚ

/-- Errors surfaced by the underlying libraries.  Modelled from the spec:
the unit/shape failure modes live inside numpy and astropy (np.dot
raises on a shape mismatch, astropy refuses to add a dimensionless array
to a degree quantity); the spec names them `InvalidTimestamp`,
`MissingUnit` and `InvalidShape`. -/
inductive PointingError
  | InvalidTimestamp
  | MissingUnit
  | InvalidShape
deriving DecidableEq

/-- numpy's np.mod for a positive modulus: the result takes the sign of
the divisor, i.e. `a - b * ⌊a / b⌋`. -/
def npMod (a b : ℚ) : ℚ := a - b * ⌊a / b⌋

/-- Translation of the notebook's get_sky_position: parse the time, get
the Sun's J2000 (RA, Dec) at the parsed time, get the solar north-pole
angle at the RAW time, rotate the offset by the vector-matrix product
with [[cos, sin], [-sin, cos]], scale the RA component by 1/cos(Dec),
negate the RA component, convert to degrees and add to the Sun's
position.  The shape and unit failure modes of np.dot and the final
quantity addition are modelled from the spec. -/
def get_sky_position {T : Type} (env : SolarEnv T) (time : T) (offset : Offset) :
    Except PointingError (ℚ × ℚ) :=
  match env.parse_time time with
  | none => .error .InvalidTimestamp
  | some astro_time =>
    let sun_pos : ℚ × ℚ := (env.sun_ra astro_time, env.sun_dec astro_time)
    let sun_np := env.solar_north_rad time
    match offset.values with
    | [x, y] =>
      let d1 := x * env.cos sun_np + y * (-env.sin sun_np)
      let d2 := x * env.sin sun_np + y * env.cos sun_np
      let d1s := d1 * (1 / env.cosdeg sun_pos.2)
      let d1f := d1s * (-1)
      match offset.unit with
      | none => .error .MissingUnit
      | some u =>
        .ok (sun_pos.1 + u.toDeg * d1f, sun_pos.2 + u.toDeg * d2)
    | _ => .error .InvalidShape

/-- Translation of the notebook's get_nustar_roll: parse the time (the
parsed value is computed but never used), get the solar north-pole angle
in degrees at the RAW time, add the requested angle and reduce modulo
360 degrees with np.mod. -/
def get_nustar_roll {T : Type} (env : SolarEnv T) (time : T) (angle : ℚ) :
    Except PointingError ℚ :=
  match env.parse_time time with
  | none => .error .InvalidTimestamp
  | some _astro_time =>
    let sun_np := env.solar_north_deg time
    .ok (npMod (sun_np + angle) 360)

/-- The Sun's base ephemeris position used by get_sky_position (the
get_sun output at the parsed time), when the time parses. -/
def sun_position {T : Type} (env : SolarEnv T) (time : T) : Option (ℚ × ℚ) :=
  (env.parse_time time).map fun t0 => (env.sun_ra t0, env.sun_dec t0)

/-- The delta applied on top of the Sun's base position: the sky
position returned by get_sky_position minus the base position, when
both are defined. -/
def sky_delta {T : Type} (env : SolarEnv T) (time : T) (offset : Offset) :
    Option (ℚ × ℚ) :=
  match get_sky_position env time offset, sun_position env time with
  | .ok p, some s => some (p.1 - s.1, p.2 - s.2)
  | _, _ => none

/-- Days from civil date to the 1970-01-01 epoch (proleptic Gregorian),
modelling python's datetime.date ordinal arithmetic. -/
def daysFromCivil (y m d : ℤ) : ℤ :=
  let y2 := y - (if m ≤ 2 then 1 else 0)
  let era := (if 0 ≤ y2 then y2 else y2 - 399) / 400
  let yoe := y2 - era * 400
  let mp := (m + 9) % 12
  let doy := (153 * mp + 2) / 5 + d - 1
  let doe := yoe * 365 + yoe / 4 - yoe / 100 + doy
  era * 146097 + doe - 719468

/-- A civil timestamp as handled by python datetime / sunpy parse_time. -/
structure DateTime where
  year : ℤ
  month : ℤ
  day : ℤ
  hour : ℚ
  minute : ℚ
  second : ℚ

/-- The instant of a civil timestamp, in seconds since the epoch;
datetime subtraction and timedelta addition act on this value. -/
def DateTime.toSec (t : DateTime) : ℚ :=
  (daysFromCivil t.year t.month t.day : ℚ) * 86400 +
    t.hour * 3600 + t.minute * 60 + t.second

/-- A small concrete environment used to exercise the two functions:
every time parses to itself, the Sun sits at RA 100, Dec 10, the solar
north angle is 1 rad = 9 deg in the stand-in trig, with cos = 4/5,
sin = 3/5 at that angle and cos(Dec) = 1/2. -/
def testEnv : SolarEnv ℚ where
  parse_time := fun t => some t
  sun_ra := fun _ => 100
  sun_dec := fun _ => 10
  solar_north_rad := fun _ => 1
  solar_north_deg := fun _ => 9
  cos := fun _ => 4 / 5
  sin := fun _ => 3 / 5
  cosdeg := fun _ => 1 / 2

/-- Recorded ephemeris data for 2016-07-26T19:53:15 UT, as rational
approximations: astropy get_sun gives J2000 RA 126.3244541484 deg and
Dec 19.2526839704 deg; sunpy solar_north gives 8.8658844320891 deg,
i.e. 0.1547388744413 rad, whose cosine is 0.9880518097 and sine
0.1541220990; the cosine of the Sun's declination is 0.9440735753. -/
def sampleEnv : SolarEnv ℚ where
  parse_time := fun t => some t
  sun_ra := fun _ => 1263244541484 / 10 ^ 10
  sun_dec := fun _ => 192526839704 / 10 ^ 10
  solar_north_rad := fun _ => 1547388744413 / 10 ^ 13
  solar_north_deg := fun _ => 88658844320891 / 10 ^ 13
  cos := fun _ => 9880518097 / 10 ^ 10
  sin := fun _ => 1541220990 / 10 ^ 10
  cosdeg := fun _ => 9440735753 / 10 ^ 10

/-- Dwell window start 2016-07-26T19:22:10 of the advanced usage cell. -/
def dwell_start : DateTime := ⟨2016, 7, 26, 19, 22, 10⟩

/-- Dwell window end 2016-07-26T20:24:20 of the advanced usage cell. -/
def dwell_end : DateTime := ⟨2016, 7, 26, 20, 24, 20⟩

/-- The derived aim time: start + (end - start) * 0.5. -/
def aim_time_mid : ℚ :=
  dwell_start.toSec + (dwell_end.toSec - dwell_start.toSec) * (1 / 2)

/-- The literal aim timestamp 2016-07-26T19:53:15.00 of the basic usage
cell. -/
def aim_time_lit : DateTime := ⟨2016, 7, 26, 19, 53, 15⟩

theorem npMod_nonneg (a b : ℚ) (hb : 0 < b) : 0 ≤ npMod a b := by
  have h : (⌊a / b⌋ : ℚ) ≤ a / b := Int.floor_le (a / b)
  have h2 : (⌊a / b⌋ : ℚ) * b ≤ a := (le_div_iff₀ hb).mp h
  unfold npMod
  linarith [h2]

theorem npMod_lt (a b : ℚ) (hb : 0 < b) : npMod a b < b := by
  have h : a / b < ⌊a / b⌋ + 1 := Int.lt_floor_add_one (a / b)
  have h2 : a < (⌊a / b⌋ + 1) * b := (div_lt_iff₀ hb).mp h
  have h3 : ((⌊a / b⌋ : ℚ) + 1) * b = (⌊a / b⌋ : ℚ) * b + b := by ring
  unfold npMod
  linarith [h2, h3.le, h3.ge]


/-- Claim C1: for every timestamp that parses and every 2-component
offset carrying an angular unit, get_sky_position returns the Sun's
J2000 (RA, Dec) at that time plus the delta
(-(x cos th - y sin th) / cos Dec, x sin th + y cos th) converted from
the offset's unit to degrees, where th is the solar north-pole position
angle. -/
theorem get_sky_position_formula {T : Type} (env : SolarEnv T) (time t0 : T)
    (x y : ℚ) (u : AngUnit) (hp : env.parse_time time = some t0) :
    get_sky_position env time ⟨[x, y], some u⟩ =
      .ok (env.sun_ra t0 +
            u.toDeg * (-((x * env.cos (env.solar_north_rad time)
                - y * env.sin (env.solar_north_rad time))
              / env.cosdeg (env.sun_dec t0))),
          env.sun_dec t0 +
            u.toDeg * (x * env.sin (env.solar_north_rad time)
              + y * env.cos (env.solar_north_rad time))) := by
  simp only [get_sky_position, hp]
  congr 1
  refine Prod.ext ?_ rfl
  ring

/-- Witness for C1 at a concrete environment and offset. -/
theorem get_sky_position_formula_check :
    get_sky_position testEnv (0 : ℚ) ⟨[2, 3], some AngUnit.deg⟩ =
      Except.ok (502 / 5, 68 / 5) := by
  rw [get_sky_position_formula testEnv (0 : ℚ) 0 2 3 AngUnit.deg rfl]
  norm_num [testEnv, AngUnit.toDeg]

/-- Claim C2: with a zero offset, get_sky_position returns exactly the
Sun's ephemeris (RA, Dec) at the parsed time. -/
theorem get_sky_position_zero_offset {T : Type} (env : SolarEnv T) (time t0 : T)
    (u : AngUnit) (hp : env.parse_time time = some t0) :
    get_sky_position env time ⟨[0, 0], some u⟩ =
      .ok (env.sun_ra t0, env.sun_dec t0) := by
  simp only [get_sky_position, hp]
  congr 1
  refine Prod.ext ?_ ?_ <;> ring

/-- Witness for C2 at a concrete environment. -/
theorem get_sky_position_zero_offset_check :
    get_sky_position testEnv (0 : ℚ) ⟨[0, 0], some AngUnit.arcsec⟩ =
      Except.ok (100, 10) :=
  get_sky_position_zero_offset testEnv 0 0 AngUnit.arcsec rfl

/-- Claim C3 counterexample: with testEnv (sine of the north angle 3/5,
nonzero) and offset components (1, 1) in degrees, the position for
(-1, 1) is not the mirror of the position for (1, 1) about the base
RA 100: mirroring 498/5 about 100 gives 502/5, but the code returns
514/5. -/
theorem sky_reflection_counterexample :
    get_sky_position testEnv (0 : ℚ) ⟨[1, 1], some AngUnit.deg⟩ =
      Except.ok (498 / 5, 57 / 5) ∧
    get_sky_position testEnv (0 : ℚ) ⟨[-1, 1], some AngUnit.deg⟩ =
      Except.ok (514 / 5, 51 / 5) ∧
    (100 : ℚ) - (498 / 5 - 100) ≠ 514 / 5 := by
  refine ⟨?_, ?_, by norm_num⟩ <;>
    · simp only [get_sky_position, testEnv]
      norm_num [AngUnit.toDeg]

/-- Claim C3 amended: negating the offset x-component negates the
resulting RA delta provided the offset y-component (or the sine of the
north-pole angle) vanishes; the reflection fails in general because the
rotated RA component mixes in y times the sine of the north angle. -/
theorem sky_reflection_amended {T : Type} (env : SolarEnv T) (time t0 : T)
    (x y : ℚ) (u : AngUnit) (hp : env.parse_time time = some t0)
    (hy : y * env.sin (env.solar_north_rad time) = 0) :
    ∃ p q : ℚ × ℚ,
      get_sky_position env time ⟨[-x, y], some u⟩ = .ok p ∧
      get_sky_position env time ⟨[x, y], some u⟩ = .ok q ∧
      p.1 - env.sun_ra t0 = -(q.1 - env.sun_ra t0) := by
  simp only [get_sky_position, hp]
  refine ⟨_, _, rfl, rfl, ?_⟩
  ring_nf
  linear_combination
    (AngUnit.toDeg u * 2 * (1 / env.cosdeg (env.sun_dec t0))) * hy

/-- Witness for the amended C3 with zero y-component. -/
theorem sky_reflection_amended_check :
    ∃ p q : ℚ × ℚ,
      get_sky_position testEnv (0 : ℚ) ⟨[-2, 0], some AngUnit.deg⟩ = .ok p ∧
      get_sky_position testEnv (0 : ℚ) ⟨[2, 0], some AngUnit.deg⟩ = .ok q ∧
      p.1 - testEnv.sun_ra 0 = -(q.1 - testEnv.sun_ra 0) :=
  sky_reflection_amended testEnv 0 0 2 0 AngUnit.deg rfl (by ring)

/-- Claim C4: for a parsing timestamp, get_nustar_roll returns the solar
north-pole angle plus the requested angle reduced modulo 360, and the
result lies in the interval from 0 inclusive to 360 exclusive. -/
theorem get_nustar_roll_formula {T : Type} (env : SolarEnv T) (time t0 : T)
    (a : ℚ) (hp : env.parse_time time = some t0) :
    get_nustar_roll env time a =
      .ok (npMod (env.solar_north_deg time + a) 360) ∧
    0 ≤ npMod (env.solar_north_deg time + a) 360 ∧
    npMod (env.solar_north_deg time + a) 360 < 360 := by
  refine ⟨?_, npMod_nonneg _ _ (by norm_num), npMod_lt _ _ (by norm_num)⟩
  simp only [get_nustar_roll, hp]

/-- Witness for C4: roll at angle 355 with north angle 9 reduces to 4. -/
theorem get_nustar_roll_formula_check :
    get_nustar_roll testEnv (0 : ℚ) 355 = Except.ok 4 ∧
    (0 : ℚ) ≤ 4 ∧ (4 : ℚ) < 360 := by
  have h := get_nustar_roll_formula testEnv 0 0 355 rfl
  have hv : npMod (testEnv.solar_north_deg 0 + 355) 360 = 4 := by
    norm_num [npMod, testEnv]
  rw [hv] at h
  exact ⟨h.1, by norm_num, by norm_num⟩

/-- Claim C5: the roll computation is periodic in its angle argument
with period 360 degrees, for every timestamp (parsing or not). -/
theorem get_nustar_roll_periodic {T : Type} (env : SolarEnv T) (time : T)
    (a : ℚ) :
    get_nustar_roll env time (a + 360) = get_nustar_roll env time a := by
  unfold get_nustar_roll
  cases h : env.parse_time time with
  | none => rfl
  | some t0 =>
    simp only []
    congr 1
    unfold npMod
    have h1 : env.solar_north_deg time + (a + 360) =
        (env.solar_north_deg time + a) + 360 := by ring
    rw [h1]
    have h2 : ((env.solar_north_deg time + a) + 360) / 360 =
        (env.solar_north_deg time + a) / 360 + 1 := by ring
    rw [h2]
    rw [Int.floor_add_one]
    push_cast
    ring

/-- Claim C6: the midpoint of the dwell window 2016-07-26T19:22:10 to
2016-07-26T20:24:20 derived as start + (end - start)/2 is exactly the
instant 2016-07-26T19:53:15, and feeding the derived midpoint to both
calculators gives the same outputs as feeding the literal timestamp. -/
theorem aim_time_midpoint :
    aim_time_mid = aim_time_lit.toSec ∧
    (∀ (env : SolarEnv ℚ) (offset : Offset),
      get_sky_position env aim_time_mid offset =
        get_sky_position env aim_time_lit.toSec offset) ∧
    (∀ (env : SolarEnv ℚ) (a : ℚ),
      get_nustar_roll env aim_time_mid a =
        get_nustar_roll env aim_time_lit.toSec a) := by
  have h : aim_time_mid = aim_time_lit.toSec := by
    simp only [aim_time_mid, dwell_start, dwell_end, aim_time_lit,
      DateTime.toSec]
    ring
  exact ⟨h, fun env offset => by rw [h], fun env a => by rw [h]⟩

/-- Claim C7: with a parsing timestamp, an offset that is not a
2-component vector or lacks a unit makes get_sky_position fail with
InvalidShape or MissingUnit respectively; no Except.ok result is
produced. -/
theorem get_sky_position_bad_offset {T : Type} (env : SolarEnv T)
    (time t0 : T) (offset : Offset) (hp : env.parse_time time = some t0)
    (h : offset.unit = none ∨ offset.values.length ≠ 2) :
    get_sky_position env time offset = .error .InvalidShape ∨
    get_sky_position env time offset = .error .MissingUnit := by
  obtain ⟨vs, un⟩ := offset
  unfold get_sky_position
  rw [hp]
  rcases vs with _ | ⟨x, _ | ⟨y, _ | ⟨z, rest⟩⟩⟩
  · exact Or.inl rfl
  · exact Or.inl rfl
  · rcases un with _ | u
    · exact Or.inr rfl
    · rcases h with h | h
      · exact absurd h (by simp)
      · exact absurd rfl h
  · exact Or.inl rfl

/-- Witness for C7: a 1-component offset is rejected with InvalidShape. -/
theorem get_sky_position_bad_offset_check :
    get_sky_position testEnv (0 : ℚ) ⟨[5], none⟩ =
      .error PointingError.InvalidShape ∨
    get_sky_position testEnv (0 : ℚ) ⟨[5], none⟩ =
      .error PointingError.MissingUnit :=
  get_sky_position_bad_offset testEnv 0 0 ⟨[5], none⟩ rfl (Or.inl rfl)

/-- Claim C8: with the recorded ephemeris data for 2016-07-26T19:53:15
and the offset (1000, 150) arcsec, the sky position is within 1/1000 of
(126.0405, 19.3367) degrees and the roll for a 90 degree field-of-view
angle is within 1/1000 of 98.8659 degrees. -/
theorem worked_example :
    ∃ (p : ℚ × ℚ) (r : ℚ),
      get_sky_position sampleEnv 0 ⟨[1000, 150], some AngUnit.arcsec⟩ =
        .ok p ∧
      get_nustar_roll sampleEnv 0 90 = .ok r ∧
      |p.1 - 1260405 / 10 ^ 4| < 1 / 10 ^ 3 ∧
      |p.2 - 193367 / 10 ^ 4| < 1 / 10 ^ 3 ∧
      |r - 988659 / 10 ^ 4| < 1 / 10 ^ 3 := by
  refine ⟨(26773096948604578574267 / 212416554442500000000,
      4640799477593 / 240000000000), 988658844320891 / 10 ^ 13,
      ?_, ?_, ?_, ?_, ?_⟩
  · simp only [get_sky_position, sampleEnv]
    norm_num [AngUnit.toDeg]
  · simp only [get_nustar_roll, sampleEnv]
    congr 1
    unfold npMod
    have hf : ⌊(88658844320891 / 10 ^ 13 + (90 : ℚ)) / 360⌋ = 0 := by
      rw [Int.floor_eq_zero_iff]
      constructor <;> norm_num
    rw [hf]
    norm_num
  · rw [abs_sub_lt_iff]
    constructor <;> norm_num
  · rw [abs_sub_lt_iff]
    constructor <;> norm_num
  · rw [abs_sub_lt_iff]
    constructor <;> norm_num

/-- Claim C9: both functions consult the solar-north collaborator at the
RAW time argument.  For a parsing time, get_nustar_roll equals the mod
360 reduction of solar_north at the raw time plus the angle; changing
solar_north anywhere except at the raw time (in particular at the
normalized time) changes neither get_nustar_roll nor get_sky_position. -/
theorem roll_uses_raw_time {T : Type} (env : SolarEnv T) (time t0 : T)
    (a : ℚ) (hp : env.parse_time time = some t0) :
    get_nustar_roll env time a =
      .ok (npMod (env.solar_north_deg time + a) 360) ∧
    (∀ g : T → ℚ, g time = env.solar_north_deg time →
      get_nustar_roll { env with solar_north_deg := g } time a =
        get_nustar_roll env time a) ∧
    (∀ (g : T → ℚ) (offset : Offset), g time = env.solar_north_rad time →
      get_sky_position { env with solar_north_rad := g } time offset =
        get_sky_position env time offset) := by
  refine ⟨by simp only [get_nustar_roll, hp], ?_, ?_⟩
  · intro g hg
    simp only [get_nustar_roll, hp, hg]
  · intro g offset hg
    simp only [get_sky_position, hp, hg]

/-- Witness for C9 at a concrete environment. -/
theorem roll_uses_raw_time_check :
    get_nustar_roll testEnv (0 : ℚ) 1 =
      .ok (npMod (testEnv.solar_north_deg 0 + 1) 360) ∧
    (∀ g : ℚ → ℚ, g 0 = testEnv.solar_north_deg 0 →
      get_nustar_roll { testEnv with solar_north_deg := g } 0 1 =
        get_nustar_roll testEnv 0 1) ∧
    (∀ (g : ℚ → ℚ) (offset : Offset), g 0 = testEnv.solar_north_rad 0 →
      get_sky_position { testEnv with solar_north_rad := g } 0 offset =
        get_sky_position testEnv 0 offset) :=
  roll_uses_raw_time testEnv 0 0 1 rfl

/-- Claim C10: for a fixed timestamp, the delta between the returned sky
position and the Sun's base position is linear in the offset: additive
in the components and homogeneous under scalar multiplication. -/
theorem sky_delta_linear {T : Type} (env : SolarEnv T) (time t0 : T)
    (u : AngUnit) (x1 y1 x2 y2 a : ℚ)
    (hp : env.parse_time time = some t0) :
    ∃ d e : ℚ × ℚ,
      sky_delta env time ⟨[x1, y1], some u⟩ = some d ∧
      sky_delta env time ⟨[x2, y2], some u⟩ = some e ∧
      sky_delta env time ⟨[x1 + x2, y1 + y2], some u⟩ =
        some (d.1 + e.1, d.2 + e.2) ∧
      sky_delta env time ⟨[a * x1, a * y1], some u⟩ =
        some (a * d.1, a * d.2) := by
  simp only [sky_delta, get_sky_position, sun_position, hp, Option.map_some']
  refine ⟨_, _, rfl, rfl, ?_, ?_⟩ <;>
    · congr 1
      refine Prod.ext ?_ ?_ <;> · dsimp only; ring

/-- Witness for C10 at a concrete environment and offsets. -/
theorem sky_delta_linear_check :
    ∃ d e : ℚ × ℚ,
      sky_delta testEnv (0 : ℚ) ⟨[1, 2], some AngUnit.deg⟩ = some d ∧
      sky_delta testEnv (0 : ℚ) ⟨[3, 4], some AngUnit.deg⟩ = some e ∧
      sky_delta testEnv (0 : ℚ) ⟨[1 + 3, 2 + 4], some AngUnit.deg⟩ =
        some (d.1 + e.1, d.2 + e.2) ∧
      sky_delta testEnv (0 : ℚ) ⟨[5 * 1, 5 * 2], some AngUnit.deg⟩ =
        some (5 * d.1, 5 * d.2) :=
  sky_delta_linear testEnv 0 0 AngUnit.deg 1 2 3 4 5 rfl

end NuSTARPointing
